import Mathlib

/-!
Verification development for the pyseekdb client layer
(`seekdbclient/client/`): a shallow embedding of the connection-lifecycle
and backend-dispatch layer, with the three client variants
(`SeekdbEmbeddedClient`, `SeekdbServerClient`, `OceanBaseServerClient`),
the `Client` factory, statement classification in `execute`, database
management statement templates, and the collection-management stubs.

Stateful Python methods are embedded as explicit state-passing functions
`State → result × State × List Event`, where `Event` records every
transport-level effect (connect / close / statement dispatch / commit).
The pymysql transport is opaque: a fresh connection is identified by a
caller-supplied `connId`, and query results come from an oracle
`backend : String → List Row`.
-/

/-- A live pymysql connection handle (`pymysql.Connection`).
`user` is the identity that was presented at `pymysql.connect` time;
`isOpen` mirrors the `Connection.open` property (`open` is a Lean
keyword, hence the rename). -/
structure Conn where
  id : Nat
  user : String
  isOpen : Bool
deriving Repr, DecidableEq

/-- Transport-level effects performed by a client method. -/
inductive Event where
  /-- `pymysql.connect(host, port, user, password, database, [charset])`. -/
  | connect (host : String) (port : Nat) (user : String) (password : String)
      (database : String) (charset : Option String)
  /-- `connection.close()` on the connection with the given id. -/
  | close (id : Nat)
  /-- `cursor.execute(sql)`. -/
  | query (sql : String)
  /-- `connection.commit()`. -/
  | commit
  /-- Embedded-engine transport open (the spec's opaque
  `connect(params) -> transport` for the embedded binding). -/
  | openEmbedded (path : String) (database : String)
deriving Repr, DecidableEq

/-- Python exceptions raised by this layer. -/
inductive PyError where
  | valueError (msg : String)
  | typeError
deriving Repr, DecidableEq

/-- Result of `execute`: either the full `cursor.fetchall()` row set
(for SELECT/SHOW statements) or the cursor object itself. -/
inductive ExecResult (Row : Type) where
  | rows (fetched : List Row)
  | cursor
deriving Repr, DecidableEq

/-- A row of `information_schema.SCHEMATA` as selected by the
database-management statements (a `DictCursor` row with exactly these
three keys). -/
structure SchemataRow where
  SCHEMA_NAME : String
  DEFAULT_CHARACTER_SET_NAME : String
  DEFAULT_COLLATION_NAME : String
deriving Repr, DecidableEq

/-- Modelled from the spec: `seekdbclient/client/database.py` is not under
`src/` (only its importers are). The spec's DatabaseDescriptor is
`{name, tenant: optional string, charset, collation}`. -/
structure Database where
  name : String
  tenant : Option String
  charset : String
  collation : String
deriving Repr, DecidableEq

/-- `Collection.__init__` from `collection.py`: stores the owning client,
the name, the optional dimension and the free-form metadata; performs no
transport operation. -/
structure Collection (C : Type) where
  client : C
  name : String
  dimension : Option Int
  metadata : List (String × String)
deriving Repr, DecidableEq

/-! ### Python string helpers used by `execute`'s statement classifier -/

/-- The ASCII whitespace characters stripped by Python's `str.strip()`. -/
def isPyWhitespace (c : Char) : Bool :=
  c = ' ' || c = '\t' || c = '\n' || c = '\x0d' || c = '\x0b' || c = '\x0c'

/-- Python `str.strip()` on the character list: drop leading and trailing
whitespace. -/
def pyStripChars (s : List Char) : List Char :=
  (((s.dropWhile isPyWhitespace).reverse.dropWhile isPyWhitespace).reverse)

/-- Python `str.upper()` (ASCII range, which is all the classifier
compares against). -/
def pyUpperChars (s : List Char) : List Char :=
  s.map Char.toUpper

/-- Core of `startsWithChars`, recursing on the pattern (so that a match
against an exhausted pattern reduces even when the subject is symbolic). -/
def startsWithCharsCore (pat s : List Char) : Bool :=
  match pat with
  | [] => true
  | b :: bs =>
    match s with
    | [] => false
    | a :: as => a == b && startsWithCharsCore bs as

/-- Python `str.startswith(p)` on character lists. -/
def startsWithChars (s pat : List Char) : Bool :=
  startsWithCharsCore pat s

/-- The statement classifier of `execute`:
`sql.strip().upper().startswith('SELECT') or
 sql.strip().upper().startswith('SHOW')`. -/
def is_query_sql (sql : String) : Bool :=
  startsWithChars (pyUpperChars (pyStripChars sql.data)) "SELECT".data ||
  startsWithChars (pyUpperChars (pyStripChars sql.data)) "SHOW".data

/-! ### OceanBaseServerClient (`client_oceanbase_server.py`) -/

/-- Mutable state of an `OceanBaseServerClient` instance: the connection
parameters set by `__init__` plus the lazily created `_connection`. -/
structure OceanBaseServerClient where
  host : String
  port : Nat
  tenant : String
  database : String
  user : String
  password : String
  full_user : String
  connection : Option Conn
deriving Repr, DecidableEq

/-- `OceanBaseServerClient.__init__`: stores the parameters, computes the
OceanBase username `f"{user}@{tenant}"` into `full_user`, and sets
`_connection = None`. The body performs only attribute assignments and
logging, so the event trace of construction is empty. -/
def OceanBaseServerClient.init (host : String) (port : Nat) (tenant : String)
    (database : String) (user : String) (password : String) :
    OceanBaseServerClient × List Event :=
  ({ host := host, port := port, tenant := tenant, database := database,
     user := user, password := password,
     full_user := user ++ "@" ++ tenant,
     connection := none }, [])

/-- `OceanBaseServerClient._ensure_connection`: if `_connection` is `None`
or its transport reports closed, call `pymysql.connect` with
`user=self.full_user` (which yields a fresh open handle, identified here
by the transport-chosen `connId`) and store it; otherwise reuse the
stored handle. -/
def OceanBaseServerClient.ensure_connection (st : OceanBaseServerClient)
    (connId : Nat) : Conn × OceanBaseServerClient × List Event :=
  match st.connection with
  | some c =>
    if c.isOpen then (c, st, [])
    else
      let c2 : Conn := { id := connId, user := st.full_user, isOpen := true }
      (c2, { st with connection := some c2 },
       [Event.connect st.host st.port st.full_user st.password st.database none])
  | none =>
      let c2 : Conn := { id := connId, user := st.full_user, isOpen := true }
      (c2, { st with connection := some c2 },
       [Event.connect st.host st.port st.full_user st.password st.database none])

/-- `OceanBaseServerClient._cleanup`: if a connection is stored, close it
and clear the reference; otherwise do nothing. -/
def OceanBaseServerClient.cleanup (st : OceanBaseServerClient) :
    OceanBaseServerClient × List Event :=
  match st.connection with
  | some c => ({ st with connection := none }, [Event.close c.id])
  | none => (st, [])

/-- `OceanBaseServerClient.is_connected`:
`self._connection is not None and self._connection.open`. -/
def OceanBaseServerClient.is_connected (st : OceanBaseServerClient) : Bool :=
  match st.connection with
  | some c => c.isOpen
  | none => false

/-- `OceanBaseServerClient.execute`: ensure a connection, dispatch the
statement, and either return `cursor.fetchall()` (SELECT/SHOW) or commit
and return the cursor. `backend` is the oracle giving the rows the
backend answers for a query. -/
def OceanBaseServerClient.execute {Row : Type} (st : OceanBaseServerClient)
    (connId : Nat) (backend : String → List Row) (sql : String) :
    ExecResult Row × OceanBaseServerClient × List Event :=
  let r := st.ensure_connection connId
  if is_query_sql sql then
    (ExecResult.rows (backend sql), r.2.1, r.2.2 ++ [Event.query sql])
  else
    (ExecResult.cursor, r.2.1, r.2.2 ++ [Event.query sql, Event.commit])

/-- `OceanBaseServerClient.get_raw_connection`: just `_ensure_connection`. -/
def OceanBaseServerClient.get_raw_connection (st : OceanBaseServerClient)
    (connId : Nat) : Conn × OceanBaseServerClient × List Event :=
  st.ensure_connection connId

/-- `OceanBaseServerClient.mode` property. -/
def OceanBaseServerClient.mode (_ : OceanBaseServerClient) : String :=
  "OceanBaseServerClient"

/-- `OceanBaseServerClient.create_collection`: logs, issues no statement,
and returns a `Collection` referencing the client (the `TODO` body). -/
def OceanBaseServerClient.create_collection (st : OceanBaseServerClient)
    (name : String) (dimension : Option Int) :
    Collection OceanBaseServerClient × OceanBaseServerClient × List Event :=
  ({ client := st, name := name, dimension := dimension, metadata := [] }, st, [])

/-- `OceanBaseServerClient.get_collection`. -/
def OceanBaseServerClient.get_collection (st : OceanBaseServerClient)
    (name : String) :
    Collection OceanBaseServerClient × OceanBaseServerClient × List Event :=
  ({ client := st, name := name, dimension := none, metadata := [] }, st, [])

/-- `OceanBaseServerClient.list_collections`: the stub returns `[]`. -/
def OceanBaseServerClient.list_collections (st : OceanBaseServerClient) :
    List (Collection OceanBaseServerClient) × OceanBaseServerClient × List Event :=
  ([], st, [])

/-- `OceanBaseServerClient.has_collection`: the stub returns `False`. -/
def OceanBaseServerClient.has_collection (st : OceanBaseServerClient)
    (_name : String) : Bool × OceanBaseServerClient × List Event :=
  (false, st, [])

/-- The SELECT template of `OceanBaseServerClient.get_database`. -/
def OceanBaseServerClient.get_database_sql (name : String) : String :=
  "SELECT SCHEMA_NAME, DEFAULT_CHARACTER_SET_NAME, DEFAULT_COLLATION_NAME FROM information_schema.SCHEMATA WHERE SCHEMA_NAME = '" ++ name ++ "'"

/-- `OceanBaseServerClient.get_database`: run the catalog SELECT through
`execute`; raise `ValueError(f"Database not found: {name}")` when the
result is empty, otherwise build a `Database` from the first row with
`tenant` set to the client's own tenant. (The `tenant` argument of the
Python method only triggers a log warning and affects nothing else, so
it is omitted here.) -/
def OceanBaseServerClient.get_database (st : OceanBaseServerClient)
    (connId : Nat) (backend : String → List SchemataRow) (name : String) :
    Except PyError (Database × OceanBaseServerClient × List Event) :=
  let r := st.execute connId backend (OceanBaseServerClient.get_database_sql name)
  match r.1 with
  | ExecResult.rows [] => Except.error (PyError.valueError ("Database not found: " ++ name))
  | ExecResult.rows (row :: _) =>
      Except.ok ({ name := row.SCHEMA_NAME, tenant := some st.tenant,
                   charset := row.DEFAULT_CHARACTER_SET_NAME,
                   collation := row.DEFAULT_COLLATION_NAME }, r.2.1, r.2.2)
  | ExecResult.cursor => Except.error PyError.typeError

/-- The statement built by `OceanBaseServerClient.list_databases`: the
catalog SELECT, with `f" LIMIT {offset}, {limit}"` appended when both
`limit` and `offset` are given, `f" LIMIT {limit}"` when only `limit`
is given, and nothing otherwise (the `offset`-only case adds no clause). -/
def OceanBaseServerClient.list_databases_sql (limit offset : Option Int) : String :=
  let sql := "SELECT SCHEMA_NAME, DEFAULT_CHARACTER_SET_NAME, DEFAULT_COLLATION_NAME FROM information_schema.SCHEMATA"
  match limit with
  | some l =>
    match offset with
    | some o => sql ++ " LIMIT " ++ toString o ++ ", " ++ toString l
    | none => sql ++ " LIMIT " ++ toString l
  | none => sql

/-- `OceanBaseServerClient.list_databases`: run the (possibly paged)
catalog SELECT and map each row to a `Database` with the client's own
tenant. -/
def OceanBaseServerClient.list_databases (st : OceanBaseServerClient)
    (connId : Nat) (backend : String → List SchemataRow)
    (limit offset : Option Int) :
    Except PyError (List Database × OceanBaseServerClient × List Event) :=
  let r := st.execute connId backend
    (OceanBaseServerClient.list_databases_sql limit offset)
  match r.1 with
  | ExecResult.rows rows =>
      Except.ok (rows.map (fun row =>
        { name := row.SCHEMA_NAME, tenant := some st.tenant,
          charset := row.DEFAULT_CHARACTER_SET_NAME,
          collation := row.DEFAULT_COLLATION_NAME }), r.2.1, r.2.2)
  | ExecResult.cursor => Except.error PyError.typeError

/-! ### SeekdbServerClient (`client_seekdb_server.py`) -/

/-- Mutable state of a `SeekdbServerClient` instance (no tenant, plus an
explicit `charset` parameter). -/
structure SeekdbServerClient where
  host : String
  port : Nat
  database : String
  user : String
  password : String
  charset : String
  connection : Option Conn
deriving Repr, DecidableEq

/-- `SeekdbServerClient.__init__`: stores the parameters and sets
`_connection = None`; no transport operation is performed. -/
def SeekdbServerClient.init (host : String) (port : Nat) (database : String)
    (user : String) (password : String) (charset : String) :
    SeekdbServerClient × List Event :=
  ({ host := host, port := port, database := database, user := user,
     password := password, charset := charset, connection := none }, [])

/-- `SeekdbServerClient._ensure_connection`: identical to the OceanBase
variant except that the bare `self.user` is presented and `charset` is
passed to `pymysql.connect`. -/
def SeekdbServerClient.ensure_connection (st : SeekdbServerClient)
    (connId : Nat) : Conn × SeekdbServerClient × List Event :=
  match st.connection with
  | some c =>
    if c.isOpen then (c, st, [])
    else
      let c2 : Conn := { id := connId, user := st.user, isOpen := true }
      (c2, { st with connection := some c2 },
       [Event.connect st.host st.port st.user st.password st.database (some st.charset)])
  | none =>
      let c2 : Conn := { id := connId, user := st.user, isOpen := true }
      (c2, { st with connection := some c2 },
       [Event.connect st.host st.port st.user st.password st.database (some st.charset)])

/-- `SeekdbServerClient._cleanup`. -/
def SeekdbServerClient.cleanup (st : SeekdbServerClient) :
    SeekdbServerClient × List Event :=
  match st.connection with
  | some c => ({ st with connection := none }, [Event.close c.id])
  | none => (st, [])

/-- `SeekdbServerClient.is_connected`. -/
def SeekdbServerClient.is_connected (st : SeekdbServerClient) : Bool :=
  match st.connection with
  | some c => c.isOpen
  | none => false

/-- `SeekdbServerClient.execute` (same body as the OceanBase variant). -/
def SeekdbServerClient.execute {Row : Type} (st : SeekdbServerClient)
    (connId : Nat) (backend : String → List Row) (sql : String) :
    ExecResult Row × SeekdbServerClient × List Event :=
  let r := st.ensure_connection connId
  if is_query_sql sql then
    (ExecResult.rows (backend sql), r.2.1, r.2.2 ++ [Event.query sql])
  else
    (ExecResult.cursor, r.2.1, r.2.2 ++ [Event.query sql, Event.commit])

/-- `SeekdbServerClient.get_raw_connection`. -/
def SeekdbServerClient.get_raw_connection (st : SeekdbServerClient)
    (connId : Nat) : Conn × SeekdbServerClient × List Event :=
  st.ensure_connection connId

/-- `SeekdbServerClient.mode` property. -/
def SeekdbServerClient.mode (_ : SeekdbServerClient) : String :=
  "SeekdbServerClient"

/-- `SeekdbServerClient.create_collection` (stub: no statement issued). -/
def SeekdbServerClient.create_collection (st : SeekdbServerClient)
    (name : String) (dimension : Option Int) :
    Collection SeekdbServerClient × SeekdbServerClient × List Event :=
  ({ client := st, name := name, dimension := dimension, metadata := [] }, st, [])

/-- `SeekdbServerClient.get_collection`. -/
def SeekdbServerClient.get_collection (st : SeekdbServerClient)
    (name : String) :
    Collection SeekdbServerClient × SeekdbServerClient × List Event :=
  ({ client := st, name := name, dimension := none, metadata := [] }, st, [])

/-- `SeekdbServerClient.list_collections`: the stub returns `[]`. -/
def SeekdbServerClient.list_collections (st : SeekdbServerClient) :
    List (Collection SeekdbServerClient) × SeekdbServerClient × List Event :=
  ([], st, [])

/-- `SeekdbServerClient.has_collection`: the stub returns `False`. -/
def SeekdbServerClient.has_collection (st : SeekdbServerClient)
    (_name : String) : Bool × SeekdbServerClient × List Event :=
  (false, st, [])

/-- The SELECT template of `SeekdbServerClient.get_database` (textually
identical to the OceanBase one). -/
def SeekdbServerClient.get_database_sql (name : String) : String :=
  "SELECT SCHEMA_NAME, DEFAULT_CHARACTER_SET_NAME, DEFAULT_COLLATION_NAME FROM information_schema.SCHEMATA WHERE SCHEMA_NAME = '" ++ name ++ "'"

/-- `SeekdbServerClient.get_database`: like the OceanBase variant but the
returned `Database` carries `tenant = None` (no tenant concept in server
mode). -/
def SeekdbServerClient.get_database (st : SeekdbServerClient)
    (connId : Nat) (backend : String → List SchemataRow) (name : String) :
    Except PyError (Database × SeekdbServerClient × List Event) :=
  let r := st.execute connId backend (SeekdbServerClient.get_database_sql name)
  match r.1 with
  | ExecResult.rows [] => Except.error (PyError.valueError ("Database not found: " ++ name))
  | ExecResult.rows (row :: _) =>
      Except.ok ({ name := row.SCHEMA_NAME, tenant := none,
                   charset := row.DEFAULT_CHARACTER_SET_NAME,
                   collation := row.DEFAULT_COLLATION_NAME }, r.2.1, r.2.2)
  | ExecResult.cursor => Except.error PyError.typeError

/-- The statement built by `SeekdbServerClient.list_databases` (same
paging logic as the OceanBase variant: the `offset`-only case adds no
clause). -/
def SeekdbServerClient.list_databases_sql (limit offset : Option Int) : String :=
  let sql := "SELECT SCHEMA_NAME, DEFAULT_CHARACTER_SET_NAME, DEFAULT_COLLATION_NAME FROM information_schema.SCHEMATA"
  match limit with
  | some l =>
    match offset with
    | some o => sql ++ " LIMIT " ++ toString o ++ ", " ++ toString l
    | none => sql ++ " LIMIT " ++ toString l
  | none => sql

/-- `SeekdbServerClient.list_databases`: rows mapped to `Database` values
with `tenant = None`. -/
def SeekdbServerClient.list_databases (st : SeekdbServerClient)
    (connId : Nat) (backend : String → List SchemataRow)
    (limit offset : Option Int) :
    Except PyError (List Database × SeekdbServerClient × List Event) :=
  let r := st.execute connId backend
    (SeekdbServerClient.list_databases_sql limit offset)
  match r.1 with
  | ExecResult.rows rows =>
      Except.ok (rows.map (fun row =>
        { name := row.SCHEMA_NAME, tenant := none,
          charset := row.DEFAULT_CHARACTER_SET_NAME,
          collation := row.DEFAULT_COLLATION_NAME }), r.2.1, r.2.2)
  | ExecResult.cursor => Except.error PyError.typeError

/-! ### SeekdbEmbeddedClient and the `Client` factory (`client/__init__.py`) -/

/-- Modelled from the spec: `client_seekdb_embedded.py` is not under
`src/` (only its importers and tests are). Per the spec, the Embedded
variant is constructed from `path` and `database` alone and, like the
other two variants, opens no connection at construction (the lazy
connection guarantee), so `isConnected()` is false right after
construction. -/
structure SeekdbEmbeddedClient where
  path : String
  database : String
  connection : Option Conn
deriving Repr, DecidableEq

/-- Modelled from the spec: `SeekdbEmbeddedClient.__init__` stores `path`
and `database`, opens nothing, and leaves no stored connection. -/
def SeekdbEmbeddedClient.init (path : String) (database : String) :
    SeekdbEmbeddedClient × List Event :=
  ({ path := path, database := database, connection := none }, [])

/-- Modelled from the spec: `isConnected()` — a connection exists and its
transport reports open. -/
def SeekdbEmbeddedClient.is_connected (st : SeekdbEmbeddedClient) : Bool :=
  match st.connection with
  | some c => c.isOpen
  | none => false

/-- Modelled from the spec: the embedded variant's ensure-connection step
(spec §4.3) — open a fresh handle if none exists or the existing one
reports closed, otherwise reuse the stored handle (the embedded engine
has no username, so the handle's `user` is empty). -/
def SeekdbEmbeddedClient.ensure_connection (st : SeekdbEmbeddedClient)
    (connId : Nat) : Conn × SeekdbEmbeddedClient × List Event :=
  match st.connection with
  | some c =>
    if c.isOpen then (c, st, [])
    else
      let c2 : Conn := { id := connId, user := "", isOpen := true }
      (c2, { st with connection := some c2 },
       [Event.openEmbedded st.path st.database])
  | none =>
      let c2 : Conn := { id := connId, user := "", isOpen := true }
      (c2, { st with connection := some c2 },
       [Event.openEmbedded st.path st.database])

/-- Modelled from the spec: the embedded variant's cleanup — close the
transport and clear the handle reference when one is stored, and do
nothing (a no-op, not an error) otherwise. -/
def SeekdbEmbeddedClient.cleanup (st : SeekdbEmbeddedClient) :
    SeekdbEmbeddedClient × List Event :=
  match st.connection with
  | some c => ({ st with connection := none }, [Event.close c.id])
  | none => (st, [])

/-- The union type returned by the `Client` factory
(`Union[SeekdbEmbeddedClient, SeekdbServerClient]`). -/
inductive ClientVariant where
  | embedded (c : SeekdbEmbeddedClient)
  | server (c : SeekdbServerClient)
deriving Repr, DecidableEq

/-- The `Client` factory function of `client/__init__.py`:
if `path` is given, construct the embedded variant from `path` and
`database` (all network parameters unused on this branch); else if
`host` is given, default `port` to `2882` and `user` to `"root"` and
construct the server variant; else raise
`ValueError("Must provide either path (embedded mode) or host (server mode) parameter")`.
`charset` is not a parameter of `Client`, so the server variant gets the
`SeekdbServerClient.__init__` default `"utf8mb4"`. -/
def Client (path : Option String) (host : Option String) (port : Option Nat)
    (database : String) (user : Option String) (password : String) :
    Except PyError (ClientVariant × List Event) :=
  match path with
  | some p =>
      let r := SeekdbEmbeddedClient.init p database
      Except.ok (ClientVariant.embedded r.1, r.2)
  | none =>
    match host with
    | some h =>
        let port := port.getD 2882
        let user := user.getD "root"
        let r := SeekdbServerClient.init h port database user password "utf8mb4"
        Except.ok (ClientVariant.server r.1, r.2)
    | none =>
        Except.error (PyError.valueError
          "Must provide either path (embedded mode) or host (server mode) parameter")

/-! ### Concrete fixtures (used by witness theorems) -/

/-- An OceanBase client freshly constructed with user `"u"`, tenant `"t"`. -/
def obFresh : OceanBaseServerClient :=
  (OceanBaseServerClient.init "h" 2881 "t" "db" "u" "p").1

/-- The same client after its stored handle went stale (transport closed). -/
def obStale : OceanBaseServerClient :=
  { obFresh with connection := some { id := 7, user := "u@t", isOpen := false } }

/-- The same client with a live stored handle. -/
def obLive : OceanBaseServerClient :=
  { obFresh with connection := some { id := 7, user := "u@t", isOpen := true } }

/-- A server-mode client freshly constructed. -/
def sdbFresh : SeekdbServerClient :=
  (SeekdbServerClient.init "h" 2882 "db" "root" "p" "utf8mb4").1

/-- The server-mode client with a stale stored handle. -/
def sdbStale : SeekdbServerClient :=
  { sdbFresh with connection := some { id := 7, user := "root", isOpen := false } }

/-- The server-mode client with a live stored handle. -/
def sdbLive : SeekdbServerClient :=
  { sdbFresh with connection := some { id := 7, user := "root", isOpen := true } }

/-- An embedded client freshly constructed. -/
def embFresh : SeekdbEmbeddedClient :=
  (SeekdbEmbeddedClient.init "/d" "db").1

/-- The embedded client with a stale stored handle. -/
def embStale : SeekdbEmbeddedClient :=
  { embFresh with connection := some { id := 7, user := "", isOpen := false } }

/-- The embedded client with a live stored handle. -/
def embLive : SeekdbEmbeddedClient :=
  { embFresh with connection := some { id := 7, user := "", isOpen := true } }

/-- A backend oracle whose catalog has exactly one schema, named `"db1"`. -/
def oneRowBackend : String → List SchemataRow := fun _ =>
  [{ SCHEMA_NAME := "db1", DEFAULT_CHARACTER_SET_NAME := "utf8mb4",
     DEFAULT_COLLATION_NAME := "utf8mb4_general_ci" }]

/-- A backend oracle whose catalog is empty. -/
def emptyBackend : String → List SchemataRow := fun _ => []

/-! ### Helper lemmas -/

lemma dropWhile_cons_of_false {p : Char → Bool} {a : Char} {l : List Char}
    (h : p a = false) : List.dropWhile p (a :: l) = a :: l := by
  simp [List.dropWhile_cons, h]

/-- `str.strip()` leaves a string alone when its first and last characters
are not whitespace. -/
lemma pyStripChars_shape (a b : Char) (l : List Char)
    (ha : isPyWhitespace a = false) (hb : isPyWhitespace b = false) :
    pyStripChars (a :: (l ++ [b])) = a :: (l ++ [b]) := by
  unfold pyStripChars
  rw [dropWhile_cons_of_false ha]
  rw [show (a :: (l ++ [b])).reverse = b :: (l.reverse ++ [a]) by simp]
  rw [dropWhile_cons_of_false hb]
  simp

/-- The `get_database` statement is always classified as a query. -/
lemma is_query_get_database_sql (name : String) :
    is_query_sql (OceanBaseServerClient.get_database_sql name) = true := by
  have hdata : (OceanBaseServerClient.get_database_sql name).data
      = 'S' :: (("ELECT SCHEMA_NAME, DEFAULT_CHARACTER_SET_NAME, DEFAULT_COLLATION_NAME FROM information_schema.SCHEMATA WHERE SCHEMA_NAME = '".data
          ++ name.data) ++ ['\x27']) := rfl
  simp only [is_query_sql, hdata]
  rw [pyStripChars_shape _ _ _ (by decide) (by decide)]
  rfl

/-- The two server-backed variants build the very same `get_database`
statement. -/
lemma seekdb_get_database_sql_eq (name : String) :
    SeekdbServerClient.get_database_sql name
      = OceanBaseServerClient.get_database_sql name := rfl

/-! ### Claim theorems -/

/-- C1: For the multi-tenant (OceanBase) variant, the authentication
identity presented to the backend when the connection handle is created
is exactly the composite `"{user}@{tenant}"` — for user `"u1"` and
tenant `"t1"`, exactly `"u1@t1"` — not the bare username. The composite
is computed once at construction into `full_user`, the handle created by
`_ensure_connection` carries exactly that stored value, and every
`connect` the client can ever emit presents the stored `full_user`
(it is never re-derived elsewhere). -/
theorem oceanbase_identity_is_user_at_tenant
    (host : String) (port : Nat) (tenant : String) (database : String)
    (user : String) (password : String) (connId : Nat) :
    ((OceanBaseServerClient.init host port tenant database user password).1.full_user
        = user ++ "@" ++ tenant)
    ∧ (((OceanBaseServerClient.init host port tenant database user password).1.ensure_connection connId).1.user
        = user ++ "@" ++ tenant)
    ∧ (((OceanBaseServerClient.init host port tenant database user password).1.ensure_connection connId).2.2
        = [Event.connect host port (user ++ "@" ++ tenant) password database none])
    ∧ (∀ st : OceanBaseServerClient, ∀ cId : Nat,
        (st.ensure_connection cId).2.2 = []
        ∨ (st.ensure_connection cId).2.2
            = [Event.connect st.host st.port st.full_user st.password st.database none])
    ∧ (OceanBaseServerClient.init "h" 2881 "t1" "db" "u1" "").1.full_user = "u1@t1" := by
  refine ⟨rfl, rfl, rfl, ?_, rfl⟩
  intro st cId
  match h : st.connection with
  | none => right; simp [OceanBaseServerClient.ensure_connection, h]
  | some c =>
    by_cases hc : c.isOpen
    · left; simp [OceanBaseServerClient.ensure_connection, h, hc]
    · right; simp [OceanBaseServerClient.ensure_connection, h, hc]

/-- C2: For all three client variants, constructing a client opens no
physical connection: right after the constructor returns,
`is_connected` is `false` and the construction's transport-event trace
is empty. -/
theorem construction_opens_no_connection
    (host : String) (port : Nat) (tenant : String) (database : String)
    (user : String) (password : String) (charset : String) (path : String) :
    ((OceanBaseServerClient.init host port tenant database user password).1.is_connected = false
      ∧ (OceanBaseServerClient.init host port tenant database user password).2 = [])
    ∧ ((SeekdbServerClient.init host port database user password charset).1.is_connected = false
      ∧ (SeekdbServerClient.init host port database user password charset).2 = [])
    ∧ ((SeekdbEmbeddedClient.init path database).1.is_connected = false
      ∧ (SeekdbEmbeddedClient.init path database).2 = []) :=
  ⟨⟨rfl, rfl⟩, ⟨rfl, rfl⟩, ⟨rfl, rfl⟩⟩

/-- C3: For both server-backed variants, when the stored handle reports
its transport closed at the time of a new operation, `_ensure_connection`
(hence `get_raw_connection`, and `execute`, which both go through it)
transparently opens, stores and returns a fresh open handle instead of
surfacing an error; while the stored handle reports open, the very same
handle is reused with no reconnection (empty event trace). -/
theorem stale_handle_transparent_reconnect {Row : Type}
    (stO : OceanBaseServerClient) (stS : SeekdbServerClient)
    (stE : SeekdbEmbeddedClient) (connId : Nat)
    (c : Conn) (backend : String → List Row) (sql : String) :
    (stO.connection = some c → c.isOpen = false →
      stO.ensure_connection connId =
        ({ id := connId, user := stO.full_user, isOpen := true },
         { stO with connection := some { id := connId, user := stO.full_user, isOpen := true } },
         [Event.connect stO.host stO.port stO.full_user stO.password stO.database none]))
    ∧ (stO.connection = some c → c.isOpen = true →
        stO.ensure_connection connId = (c, stO, []))
    ∧ stO.get_raw_connection connId = stO.ensure_connection connId
    ∧ (stO.connection = some c → c.isOpen = false →
        ((stO.execute connId backend sql).2.1).connection
          = some { id := connId, user := stO.full_user, isOpen := true })
    ∧ (stS.connection = some c → c.isOpen = false →
      stS.ensure_connection connId =
        ({ id := connId, user := stS.user, isOpen := true },
         { stS with connection := some { id := connId, user := stS.user, isOpen := true } },
         [Event.connect stS.host stS.port stS.user stS.password stS.database (some stS.charset)]))
    ∧ (stS.connection = some c → c.isOpen = true →
        stS.ensure_connection connId = (c, stS, []))
    ∧ stS.get_raw_connection connId = stS.ensure_connection connId
    ∧ (stS.connection = some c → c.isOpen = false →
        ((stS.execute connId backend sql).2.1).connection
          = some { id := connId, user := stS.user, isOpen := true })
    ∧ (stE.connection = some c → c.isOpen = false →
      stE.ensure_connection connId =
        ({ id := connId, user := "", isOpen := true },
         { stE with connection := some { id := connId, user := "", isOpen := true } },
         [Event.openEmbedded stE.path stE.database]))
    ∧ (stE.connection = some c → c.isOpen = true →
        stE.ensure_connection connId = (c, stE, [])) := by
  refine ⟨?_, ?_, rfl, ?_, ?_, ?_, rfl, ?_, ?_, ?_⟩ <;> intro h hc
  · simp [OceanBaseServerClient.ensure_connection, h, hc]
  · simp [OceanBaseServerClient.ensure_connection, h, hc]
  · simp [OceanBaseServerClient.execute, OceanBaseServerClient.ensure_connection, h, hc]
    by_cases hq : is_query_sql sql <;> simp [hq]
  · simp [SeekdbServerClient.ensure_connection, h, hc]
  · simp [SeekdbServerClient.ensure_connection, h, hc]
  · simp [SeekdbServerClient.execute, SeekdbServerClient.ensure_connection, h, hc]
    by_cases hq : is_query_sql sql <;> simp [hq]
  · simp [SeekdbEmbeddedClient.ensure_connection, h, hc]
  · simp [SeekdbEmbeddedClient.ensure_connection, h, hc]

/-- Witness for C3: a client holding a closed handle reconnects with a
fresh open handle, and a client holding an open handle reuses it. -/
theorem stale_handle_transparent_reconnect_witness :
    (obStale.connection = some { id := 7, user := "u@t", isOpen := false }
      ∧ Conn.isOpen { id := 7, user := "u@t", isOpen := false } = false
      ∧ obStale.ensure_connection 8 =
        ({ id := 8, user := "u@t", isOpen := true },
         { obStale with connection := some { id := 8, user := "u@t", isOpen := true } },
         [Event.connect "h" 2881 "u@t" "p" "db" none]))
    ∧ (obLive.connection = some { id := 7, user := "u@t", isOpen := true }
      ∧ Conn.isOpen { id := 7, user := "u@t", isOpen := true } = true
      ∧ obLive.ensure_connection 8 = ({ id := 7, user := "u@t", isOpen := true }, obLive, [])) := by
  have h1 := (@stale_handle_transparent_reconnect Nat obStale sdbStale embStale 8
    { id := 7, user := "u@t", isOpen := false } (fun _ => []) "SELECT 1").1 rfl rfl
  have h2 := (@stale_handle_transparent_reconnect Nat obLive sdbLive embLive 8
    { id := 7, user := "u@t", isOpen := true } (fun _ => []) "SELECT 1").2.1 rfl rfl
  exact ⟨⟨rfl, rfl, h1⟩, ⟨rfl, rfl, h2⟩⟩

/-- `_ensure_connection` never commits (OceanBase variant). -/
lemma commit_not_mem_ensure_ob (st : OceanBaseServerClient) (connId : Nat) :
    Event.commit ∉ (st.ensure_connection connId).2.2 := by
  match h : st.connection with
  | none => simp [OceanBaseServerClient.ensure_connection, h]
  | some c =>
    by_cases hc : c.isOpen <;>
      simp [OceanBaseServerClient.ensure_connection, h, hc]

/-- `_ensure_connection` never commits (server variant). -/
lemma commit_not_mem_ensure_sdb (st : SeekdbServerClient) (connId : Nat) :
    Event.commit ∉ (st.ensure_connection connId).2.2 := by
  match h : st.connection with
  | none => simp [SeekdbServerClient.ensure_connection, h]
  | some c =>
    by_cases hc : c.isOpen <;>
      simp [SeekdbServerClient.ensure_connection, h, hc]

/-- C4: For every SQL string that, after stripping leading/trailing
whitespace, begins case-insensitively with `SELECT` or `SHOW`, `execute`
returns the full fetched row set (and performs no commit); for every
other statement `execute` commits immediately within the same call (its
trace ends `... query; commit`, so no transaction spans two `execute`
calls) and returns the cursor. Holds for both server-backed variants. -/
theorem execute_statement_classification {Row : Type}
    (stO : OceanBaseServerClient) (stS : SeekdbServerClient) (connId : Nat)
    (backend : String → List Row) (sql : String) :
    (is_query_sql sql = true →
      (stO.execute connId backend sql).1 = ExecResult.rows (backend sql)
      ∧ Event.commit ∉ (stO.execute connId backend sql).2.2
      ∧ (stS.execute connId backend sql).1 = ExecResult.rows (backend sql)
      ∧ Event.commit ∉ (stS.execute connId backend sql).2.2)
    ∧ (is_query_sql sql = false →
      (stO.execute connId backend sql).1 = ExecResult.cursor
      ∧ (stO.execute connId backend sql).2.2
          = (stO.ensure_connection connId).2.2 ++ [Event.query sql, Event.commit]
      ∧ (stS.execute connId backend sql).1 = ExecResult.cursor
      ∧ (stS.execute connId backend sql).2.2
          = (stS.ensure_connection connId).2.2 ++ [Event.query sql, Event.commit]) := by
  constructor <;> intro hq
  · refine ⟨?_, ?_, ?_, ?_⟩ <;>
      simp [OceanBaseServerClient.execute, SeekdbServerClient.execute, hq,
        commit_not_mem_ensure_ob, commit_not_mem_ensure_sdb]
  · refine ⟨?_, ?_, ?_, ?_⟩ <;>
      simp [OceanBaseServerClient.execute, SeekdbServerClient.execute, hq]

/-- Witness for C4: `"  select 1"` and `"SHOW TABLES"` return the row
set; `"CREATE DATABASE x"` returns the cursor and its call trace ends
with an immediate commit. -/
theorem execute_statement_classification_witness :
    (is_query_sql "  select 1" = true
      ∧ (obFresh.execute 1 (fun _ => [(1 : Nat)]) "  select 1").1 = ExecResult.rows [1]
      ∧ is_query_sql "SHOW TABLES" = true
      ∧ (obFresh.execute 1 (fun _ => [(2 : Nat)]) "SHOW TABLES").1 = ExecResult.rows [2])
    ∧ (is_query_sql "CREATE DATABASE x" = false
      ∧ (obFresh.execute 1 (fun _ => ([] : List Nat)) "CREATE DATABASE x").1 = ExecResult.cursor
      ∧ (obFresh.execute 1 (fun _ => ([] : List Nat)) "CREATE DATABASE x").2.2
          = [Event.connect "h" 2881 "u@t" "p" "db" none,
             Event.query "CREATE DATABASE x", Event.commit]) := by
  have h1 := (execute_statement_classification obFresh sdbFresh 1
    (fun _ => [(1 : Nat)]) "  select 1").1 (by decide)
  have h2 := (execute_statement_classification obFresh sdbFresh 1
    (fun _ => [(2 : Nat)]) "SHOW TABLES").1 (by decide)
  have h3 := (execute_statement_classification obFresh sdbFresh 1
    (fun _ => ([] : List Nat)) "CREATE DATABASE x").2 (by decide)
  refine ⟨⟨by decide, h1.1, by decide, h2.1⟩, by decide, h3.1, ?_⟩
  rw [h3.2.1]; rfl

/-- C5: Factory routing: `Client(path=p)` yields the Embedded variant
built from `p` and `database`; `Client(host=h)` with `port` and `user`
omitted yields the Server variant with `port` defaulted to the canonical
`2882` and `user` defaulted to `"root"`; `Client()` with neither `path`
nor `host` raises the configuration `ValueError`. -/
theorem client_factory_routing (p h : String) (database : String) (password : String) :
    Client (some p) none none database none password
      = Except.ok (ClientVariant.embedded (SeekdbEmbeddedClient.init p database).1,
                   (SeekdbEmbeddedClient.init p database).2)
    ∧ Client none (some h) none database none password
      = Except.ok (ClientVariant.server
            (SeekdbServerClient.init h 2882 database "root" password "utf8mb4").1,
          (SeekdbServerClient.init h 2882 database "root" password "utf8mb4").2)
    ∧ Client none none none database none password
      = Except.error (PyError.valueError
          "Must provide either path (embedded mode) or host (server mode) parameter")
    ∧ (SeekdbServerClient.init h 2882 database "root" password "utf8mb4").1.port = 2882
    ∧ (SeekdbServerClient.init h 2882 database "root" password "utf8mb4").1.user = "root" :=
  ⟨rfl, rfl, rfl, rfl, rfl⟩

/-- `_cleanup` always leaves no stored connection (OceanBase variant). -/
lemma ob_cleanup_connection_none (st : OceanBaseServerClient) :
    st.cleanup.1.connection = none := by
  match h : st.connection with
  | none => simp [OceanBaseServerClient.cleanup, h]
  | some c => simp [OceanBaseServerClient.cleanup, h]

/-- `_cleanup` always leaves no stored connection (server variant). -/
lemma sdb_cleanup_connection_none (st : SeekdbServerClient) :
    st.cleanup.1.connection = none := by
  match h : st.connection with
  | none => simp [SeekdbServerClient.cleanup, h]
  | some c => simp [SeekdbServerClient.cleanup, h]

/-- `_cleanup` on a client with no stored connection is an exact no-op
(OceanBase variant). -/
lemma ob_cleanup_of_none (st : OceanBaseServerClient)
    (h : st.connection = none) : st.cleanup = (st, []) := by
  simp [OceanBaseServerClient.cleanup, h]

/-- `_cleanup` on a client with no stored connection is an exact no-op
(server variant). -/
lemma sdb_cleanup_of_none (st : SeekdbServerClient)
    (h : st.connection = none) : st.cleanup = (st, []) := by
  simp [SeekdbServerClient.cleanup, h]

/-- The embedded cleanup always leaves no stored connection. -/
lemma emb_cleanup_connection_none (st : SeekdbEmbeddedClient) :
    st.cleanup.1.connection = none := by
  match h : st.connection with
  | none => simp [SeekdbEmbeddedClient.cleanup, h]
  | some c => simp [SeekdbEmbeddedClient.cleanup, h]

/-- The embedded cleanup on a client with no stored connection is an
exact no-op. -/
lemma emb_cleanup_of_none (st : SeekdbEmbeddedClient)
    (h : st.connection = none) : st.cleanup = (st, []) := by
  simp [SeekdbEmbeddedClient.cleanup, h]

/-- C6: Cleanup is idempotent for every client variant: after one
cleanup the client reports disconnected, a second cleanup in succession
is an exact no-op (same state, no transport event, hence no error), the
client still reports disconnected afterwards, and cleanup of a client
with no stored connection is a no-op, not an error. -/
theorem cleanup_idempotent (stO : OceanBaseServerClient) (stS : SeekdbServerClient)
    (stE : SeekdbEmbeddedClient) :
    (stO.cleanup.1.is_connected = false
      ∧ stO.cleanup.1.cleanup = (stO.cleanup.1, [])
      ∧ stO.cleanup.1.cleanup.1.is_connected = false
      ∧ (stO.connection = none → stO.cleanup = (stO, [])))
    ∧ (stS.cleanup.1.is_connected = false
      ∧ stS.cleanup.1.cleanup = (stS.cleanup.1, [])
      ∧ stS.cleanup.1.cleanup.1.is_connected = false
      ∧ (stS.connection = none → stS.cleanup = (stS, [])))
    ∧ (stE.cleanup.1.is_connected = false
      ∧ stE.cleanup.1.cleanup = (stE.cleanup.1, [])
      ∧ stE.cleanup.1.cleanup.1.is_connected = false
      ∧ (stE.connection = none → stE.cleanup = (stE, []))) := by
  have hO := ob_cleanup_connection_none stO
  have hS := sdb_cleanup_connection_none stS
  have hE := emb_cleanup_connection_none stE
  refine ⟨⟨?_, ?_, ?_, ?_⟩, ⟨?_, ?_, ?_, ?_⟩, ?_, ?_, ?_, ?_⟩
  · simp [OceanBaseServerClient.is_connected, hO]
  · exact ob_cleanup_of_none _ hO
  · simp [OceanBaseServerClient.is_connected, ob_cleanup_connection_none]
  · exact fun h => ob_cleanup_of_none _ h
  · simp [SeekdbServerClient.is_connected, hS]
  · exact sdb_cleanup_of_none _ hS
  · simp [SeekdbServerClient.is_connected, sdb_cleanup_connection_none]
  · exact fun h => sdb_cleanup_of_none _ h
  · simp [SeekdbEmbeddedClient.is_connected, hE]
  · exact emb_cleanup_of_none _ hE
  · simp [SeekdbEmbeddedClient.is_connected, emb_cleanup_connection_none]
  · exact fun h => emb_cleanup_of_none _ h

/-- Witness for C6: a freshly-constructed client (no stored connection)
is cleaned up as a no-op, and a connected client cleaned up twice stays
disconnected with the second call a no-op. -/
theorem cleanup_idempotent_witness :
    (obFresh.connection = none ∧ obFresh.cleanup = (obFresh, []))
    ∧ obLive.cleanup.1.is_connected = false
    ∧ obLive.cleanup.1.cleanup = (obLive.cleanup.1, [])
    ∧ obLive.cleanup.1.cleanup.1.is_connected = false := by
  have h1 := (cleanup_idempotent obFresh sdbFresh embFresh).1.2.2.2 rfl
  have h2 := (cleanup_idempotent obLive sdbLive embLive).1
  exact ⟨⟨rfl, h1⟩, h2.1, h2.2.1, h2.2.2.1⟩

/-- Counterexample for C7: with `limit` omitted and `offset = 5`
supplied, both server-backed variants generate exactly the bare catalog
statement — identical to the no-paging statement, with the supplied
offset value appearing nowhere in it — so a supplied offset alone is
*not* translated into a paging clause. -/
theorem list_databases_offset_only_ignored :
    OceanBaseServerClient.list_databases_sql none (some 5)
      = OceanBaseServerClient.list_databases_sql none none
    ∧ SeekdbServerClient.list_databases_sql none (some 5)
      = SeekdbServerClient.list_databases_sql none none
    ∧ (OceanBaseServerClient.list_databases_sql none (some 5)).data.contains '5' = false
    ∧ (SeekdbServerClient.list_databases_sql none (some 5)).data.contains '5' = false :=
  ⟨rfl, rfl, by decide, by decide⟩

/-- C7 (amended): For the two server-backed variants, whenever `limit`
is supplied to `list_databases`, the generated catalog statement carries
a paging clause: `" LIMIT {offset}, {limit}"` when `offset` is also
supplied and `" LIMIT {limit}"` otherwise; when `limit` is omitted the
statement is the bare catalog query, even if `offset` is supplied. -/
theorem list_databases_paging_clause (l o : Int) :
    (OceanBaseServerClient.list_databases_sql (some l) (some o)
      = "SELECT SCHEMA_NAME, DEFAULT_CHARACTER_SET_NAME, DEFAULT_COLLATION_NAME FROM information_schema.SCHEMATA"
        ++ " LIMIT " ++ toString o ++ ", " ++ toString l)
    ∧ (OceanBaseServerClient.list_databases_sql (some l) none
      = "SELECT SCHEMA_NAME, DEFAULT_CHARACTER_SET_NAME, DEFAULT_COLLATION_NAME FROM information_schema.SCHEMATA"
        ++ " LIMIT " ++ toString l)
    ∧ (∀ off : Option Int, OceanBaseServerClient.list_databases_sql none off
      = "SELECT SCHEMA_NAME, DEFAULT_CHARACTER_SET_NAME, DEFAULT_COLLATION_NAME FROM information_schema.SCHEMATA")
    ∧ (∀ lim off : Option Int,
        SeekdbServerClient.list_databases_sql lim off
          = OceanBaseServerClient.list_databases_sql lim off) :=
  ⟨rfl, rfl, fun _ => rfl, fun _ _ => rfl⟩

/-- C8: For both server-backed variants, `get_database(name)` fails with
the not-found error (`ValueError(f"Database not found: {name}")`,
propagated unchanged to the caller) exactly when the catalog lookup
returns zero rows; when at least one row comes back it returns a
`Database` built from the first row, with `tenant` set to the client's
own tenant in the multi-tenant variant and no tenant in the server
variant. -/
theorem get_database_not_found_iff_zero_rows
    (stO : OceanBaseServerClient) (stS : SeekdbServerClient) (connId : Nat)
    (backend : String → List SchemataRow) (name : String) :
    (backend (OceanBaseServerClient.get_database_sql name) = [] →
      stO.get_database connId backend name
        = Except.error (PyError.valueError ("Database not found: " ++ name)))
    ∧ (∀ row rest, backend (OceanBaseServerClient.get_database_sql name) = row :: rest →
      stO.get_database connId backend name
        = Except.ok ({ name := row.SCHEMA_NAME, tenant := some stO.tenant,
                       charset := row.DEFAULT_CHARACTER_SET_NAME,
                       collation := row.DEFAULT_COLLATION_NAME },
            (stO.execute connId backend (OceanBaseServerClient.get_database_sql name)).2.1,
            (stO.execute connId backend (OceanBaseServerClient.get_database_sql name)).2.2))
    ∧ (backend (SeekdbServerClient.get_database_sql name) = [] →
      stS.get_database connId backend name
        = Except.error (PyError.valueError ("Database not found: " ++ name)))
    ∧ (∀ row rest, backend (SeekdbServerClient.get_database_sql name) = row :: rest →
      stS.get_database connId backend name
        = Except.ok ({ name := row.SCHEMA_NAME, tenant := none,
                       charset := row.DEFAULT_CHARACTER_SET_NAME,
                       collation := row.DEFAULT_COLLATION_NAME },
            (stS.execute connId backend (SeekdbServerClient.get_database_sql name)).2.1,
            (stS.execute connId backend (SeekdbServerClient.get_database_sql name)).2.2)) := by
  have hqO := is_query_get_database_sql name
  have hqS : is_query_sql (SeekdbServerClient.get_database_sql name) = true := by
    rw [seekdb_get_database_sql_eq]; exact hqO
  refine ⟨?_, ?_, ?_, ?_⟩
  · intro h
    simp [OceanBaseServerClient.get_database, OceanBaseServerClient.execute, hqO, h]
  · intro row rest h
    simp [OceanBaseServerClient.get_database, OceanBaseServerClient.execute, hqO, h]
  · intro h
    simp [SeekdbServerClient.get_database, SeekdbServerClient.execute, hqS, h]
  · intro row rest h
    simp [SeekdbServerClient.get_database, SeekdbServerClient.execute, hqS, h]

/-- Witness for C8: against an empty catalog the lookup raises the
not-found `ValueError`; against a catalog holding schema `"db1"` it
returns the corresponding `Database` with the client's tenant. -/
theorem get_database_not_found_iff_zero_rows_witness :
    (emptyBackend (OceanBaseServerClient.get_database_sql "nope") = []
      ∧ obFresh.get_database 1 emptyBackend "nope"
          = Except.error (PyError.valueError "Database not found: nope"))
    ∧ (oneRowBackend (OceanBaseServerClient.get_database_sql "db1")
        = [{ SCHEMA_NAME := "db1", DEFAULT_CHARACTER_SET_NAME := "utf8mb4",
             DEFAULT_COLLATION_NAME := "utf8mb4_general_ci" }]
      ∧ ∃ st evs, obFresh.get_database 1 oneRowBackend "db1"
          = Except.ok ({ name := "db1", tenant := some "t", charset := "utf8mb4",
                         collation := "utf8mb4_general_ci" }, st, evs)) := by
  refine ⟨⟨rfl, ?_⟩, rfl, ?_⟩
  · exact (get_database_not_found_iff_zero_rows obFresh sdbFresh 1 emptyBackend "nope").1 rfl
  · exact ⟨_, _, (get_database_not_found_iff_zero_rows obFresh sdbFresh 1
      oneRowBackend "db1").2.1 _ _ rfl⟩

/-- C9: The generic `Client` factory raises its configuration error if
and only if both `path` and `host` are `None`; when both are supplied it
raises nothing and returns the Embedded variant built from `path` and
`database` alone, silently discarding `host`, `port`, `user` and
`password` (addressing-mode exclusivity is not enforced as an error). -/
theorem client_factory_error_iff_no_addressing
    (path host : Option String) (port : Option Nat) (database : String)
    (user : Option String) (password : String) :
    ((Client path host port database user password).isOk = false
        ↔ path = none ∧ host = none)
    ∧ (∀ p h, Client (some p) (some h) port database user password
        = Except.ok (ClientVariant.embedded (SeekdbEmbeddedClient.init p database).1,
                     (SeekdbEmbeddedClient.init p database).2)) := by
  refine ⟨?_, fun p h => rfl⟩
  match path with
  | some p => simp [Client, Except.isOk, Except.toBool]
  | none =>
    match host with
    | some h => simp [Client, Except.isOk, Except.toBool]
    | none => simp [Client, Except.isOk, Except.toBool]

/-- C10: For both server-backed variants, collection management is a
stateless stub: `has_collection` returns `False` for every name and
`list_collections` returns the empty list — even immediately after
`create_collection` returned successfully — and `create_collection`
issues no statement to the backend (empty trace, state unchanged),
merely constructing a `Collection` handle referencing the client. -/
theorem server_collection_management_is_stub
    (stO : OceanBaseServerClient) (stS : SeekdbServerClient)
    (name name2 : String) (dim : Option Int) :
    (stO.create_collection name dim
        = ({ client := stO, name := name, dimension := dim, metadata := [] }, stO, [])
      ∧ stO.has_collection name2 = (false, stO, [])
      ∧ stO.list_collections = ([], stO, [])
      ∧ (((stO.create_collection name dim).2.1).has_collection name).1 = false
      ∧ (((stO.create_collection name dim).2.1).list_collections).1 = [])
    ∧ (stS.create_collection name dim
        = ({ client := stS, name := name, dimension := dim, metadata := [] }, stS, [])
      ∧ stS.has_collection name2 = (false, stS, [])
      ∧ stS.list_collections = ([], stS, [])
      ∧ (((stS.create_collection name dim).2.1).has_collection name).1 = false
      ∧ (((stS.create_collection name dim).2.1).list_collections).1 = []) :=
  ⟨⟨rfl, rfl, rfl, rfl, rfl⟩, rfl, rfl, rfl, rfl, rfl⟩
